import Mathlib

/-!
Shallow embedding of `custom_components/samsungtv_smart/api/smartthings.py`.

The module is a single class `SmartThingsTV` holding cached telemetry for one
television plus a handful of async methods that hit a cloud REST API.  We model
the mutable object state as the structure `SmartThingsTV`, each method as a
pure function from the state (plus an environment describing the network
responses it would receive) to a result record `OpRes` containing the new
state, the list of network requests issued, and the Python exception (if any)
that propagates out of the call.  String truthiness, `str.isdigit`,
`str.upper` and `int(...)` on digit strings are modelled for ASCII data.
-/

/-- Python `STStatus` enum (`STATE_OFF = 0`, `STATE_ON = 1`, `STATE_UNKNOWN = 2`). -/
inductive STStatus where
  | STATE_OFF
  | STATE_ON
  | STATE_UNKNOWN
deriving DecidableEq

/-- One `{id, name}` entry of a list-map (`supportedInputSourcesMap` etc.).
Both keys are read with `dict.get`, hence may be absent. -/
structure STEntry where
  id : Option String
  name : Option String
deriving DecidableEq

/-- The `main` sub-document of the `/states` response, restricted to the
fields the code reads.  Each plain field models `dev_data.get(k, {}).get("value")`
(`none` = key absent).  The list/list-map fields model the result of the
embedded JSON decode performed by `_load_json_list`: `none` stands for an
absent/empty/undecodable value (which yields `[]` in the code), `some l` for a
successfully decoded list. -/
structure DeviceDoc where
  volume : Option String
  mute : Option String
  soundMode : Option String
  supportedSoundModes : Option (List String)
  supportedSoundModesMap : Option (List STEntry)
  pictureMode : Option String
  supportedPictureModes : Option (List String)
  supportedPictureModesMap : Option (List STEntry)
  supportedInputSourcesMap : Option (List STEntry)
  inputSource : Option String
  tvChannel : Option String
  tvChannelName : Option String
deriving DecidableEq

/-- Cached state of one `SmartThingsTV` instance (the `self._*` attributes).
`last_refresh` is the admission timestamp of the `@Throttle` gate guarding
`_device_refresh` (see `throttleAllows`). -/
structure SmartThingsTV where
  api_key : String
  device_id : String
  use_channel_info : Bool
  state : STStatus
  prev_state : STStatus
  muted : Bool
  volume : ℚ
  source_list : Option (List String)
  source_list_map : Option (List STEntry)
  source : String
  channel : String
  channel_name : String
  sound_mode : Option String
  sound_mode_list : Option (List String)
  sound_mode_list_map : Option (List STEntry)
  picture_mode : Option String
  picture_mode_list : Option (List String)
  picture_mode_list_map : Option (List STEntry)
  is_forced_val : Bool
  forced_count : Int
  last_refresh : Option ℚ
deriving DecidableEq

/-- `SmartThingsTV.__init__`: note that `self._volume = 10`, not `0`. -/
def SmartThingsTV.init (api_key device_id : String) (use_channel_info : Bool) :
    SmartThingsTV where
  api_key := api_key
  device_id := device_id
  use_channel_info := use_channel_info
  state := .STATE_UNKNOWN
  prev_state := .STATE_UNKNOWN
  muted := false
  volume := 10
  source_list := none
  source_list_map := none
  source := ""
  channel := ""
  channel_name := ""
  sound_mode := none
  sound_mode_list := none
  sound_mode_list_map := none
  picture_mode := none
  picture_mode_list := none
  picture_mode_list_map := none
  is_forced_val := false
  forced_count := 0
  last_refresh := none

/-- One network request issued by a method. -/
inductive NetEffect where
  | getHealth
  | postRefresh
  | postCommand (capability command : String) (args : List String)
  | getStates
deriving DecidableEq

/-- A Python exception propagating out of a method.  `transport` covers the
aiohttp/timeout errors; the two invalid-mode errors are the module's own
`InvalidSmartThingsSoundMode` / `InvalidSmartThingsPictureMode`; `typeError`
models iterating over a `None` list-map. -/
inductive PyError where
  | transport
  | invalidSoundMode
  | invalidPictureMode
  | typeError
deriving DecidableEq

/-- Result of running one method: final object state, network requests issued
(in order), and the exception that propagates (state mutations performed
before the raise are kept, as in Python). -/
structure OpRes where
  st : SmartThingsTV
  effects : List NetEffect
  error : Option PyError
deriving DecidableEq

/-- A `{capability, command}` constant such as `COMMAND_POWER_OFF`. -/
structure CmdData where
  capability : String
  command : String
deriving DecidableEq

def COMMAND_POWER_OFF : CmdData := ⟨"switch", "off"⟩
def COMMAND_POWER_ON : CmdData := ⟨"switch", "on"⟩
def COMMAND_REFRESH : CmdData := ⟨"refresh", "refresh"⟩
def COMMAND_SET_SOURCE : CmdData := ⟨"mediaInputSource", "setInputSource"⟩
def COMMAND_SET_VD_SOURCE : CmdData := ⟨"samsungvd.mediaInputSource", "setInputSource"⟩
def COMMAND_MUTE : CmdData := ⟨"audioMute", "mute"⟩
def COMMAND_UNMUTE : CmdData := ⟨"audioMute", "unmute"⟩
def COMMAND_VOLUME_UP : CmdData := ⟨"audioVolume", "volumeUp"⟩
def COMMAND_VOLUME_DOWN : CmdData := ⟨"audioVolume", "volumeDown"⟩
def COMMAND_SET_VOLUME : CmdData := ⟨"audioVolume", "setVolume"⟩
def COMMAND_CHANNEL_UP : CmdData := ⟨"tvChannel", "channelUp"⟩
def COMMAND_CHANNEL_DOWN : CmdData := ⟨"tvChannel", "channelDown"⟩
def COMMAND_SET_CHANNEL : CmdData := ⟨"tvChannel", "setTvChannel"⟩
def COMMAND_SOUND_MODE : CmdData := ⟨"samsungvd.soundMode", "setSoundMode"⟩
def COMMAND_PICTURE_MODE : CmdData := ⟨"samsungvd.pictureMode", "setPictureMode"⟩

def DIGITAL_TV : String := "digitalTv"

/-- Python `str.isdigit` for ASCII strings: nonempty and all decimal digits.
Implemented over the character list so that concrete instances reduce in the
kernel. -/
def pyIsDigit (s : String) : Bool := !s.data.isEmpty && s.data.all Char.isDigit

/-- Python `int(...)` on a decimal digit string. -/
def pyInt (s : String) : Nat := s.data.foldl (fun n c => 10 * n + (c.toNat - 48)) 0

/-- Python `str.upper` for ASCII strings (over the character list, so that
concrete instances reduce in the kernel). -/
def pyUpper (s : String) : String := ⟨s.data.map Char.toUpper⟩

/-- Volume normalization of `async_device_update` (lines 476-480):
`dev_data.get("volume", {}).get("value", 0)` is truthy-and-digits checked,
then `int(v) / 100`, else `0`. -/
def parseVolume (v : Option String) : ℚ :=
  match v with
  | none => 0
  | some s => if s ≠ "" ∧ pyIsDigit s then (pyInt s : ℚ) / 100 else 0

/-- Inner loop of `get_source_name`: first entry whose id is truthy and
exactly equal to `sid` yields `map_value.get("name", "")`. -/
def lookupSourceName : List STEntry → String → String
  | [], _ => ""
  | e :: rest, sid =>
    match e.id with
    | some mid => if mid ≠ "" ∧ mid = sid then e.name.getD "" else lookupSourceName rest sid
    | none => lookupSourceName rest sid

/-- `SmartThingsTV.get_source_name` (lines 263-273).  The argument is
replaced by `"dtv"` when it case-insensitively equals `DIGITAL_TV`; the map
lookup itself compares ids with `==` (case-sensitive). -/
def SmartThingsTV.get_source_name (st : SmartThingsTV) (source_id : String) : String :=
  match st.source_list_map with
  | none => ""
  | some [] => ""
  | some l =>
    let sid := if pyUpper source_id = pyUpper DIGITAL_TV then "dtv" else source_id
    lookupSourceName l sid

/-- One step of `_get_source_list_from_map`'s loop: a truthy id is emitted,
with any capitalization of `"DTV"` replaced by `DIGITAL_TV`. -/
def sourceEntryOut (e : STEntry) : Option String :=
  match e.id with
  | some sid =>
    if sid ≠ "" then some (if pyUpper sid = "DTV" then DIGITAL_TV else sid) else none
  | none => none

/-- `SmartThingsTV._get_source_list_from_map` (lines 275-286). -/
def SmartThingsTV.get_source_list_from_map (st : SmartThingsTV) : List String :=
  match st.source_list_map with
  | none => []
  | some [] => []
  | some l => l.filterMap sourceEntryOut

/-- `SmartThingsTV._set_source` (lines 296-303). -/
def SmartThingsTV.set_source (st : SmartThingsTV) (source : String) : SmartThingsTV :=
  if source ≠ st.source then
    { st with
      source := source
      channel := ""
      channel_name := ""
      is_forced_val := true
      forced_count := 0 }
  else st

/-- Modelled from the spec: the `@Throttle(MIN_TIME_BETWEEN_UPDATES)`
decorator on `_device_refresh` comes from `homeassistant.util`, which is not
part of this repository.  Per the spec it is a timestamp-guarded gate: a call
is admitted iff no previous call was admitted within the last 10 seconds, and
an admitted call records its own timestamp. -/
def throttleAllows (last : Option ℚ) (now : ℚ) : Bool :=
  match last with
  | none => true
  | some t => decide (10 ≤ now - t)

/-- `resp.raise_for_status()` raises for HTTP status ≥ 400. -/
def isOkStatus (status : Nat) : Bool := status < 400

/-- `SmartThingsTV._device_refresh` (lines 355-379), throttled.  `now` is the
call time; `refresh_status` the HTTP status of the refresh-trigger POST (only
consulted when the POST is actually issued).  A 409 status sets the state to
`STATE_OFF`; any other error status raises. -/
def SmartThingsTV.device_refresh (st : SmartThingsTV) (now : ℚ) (refresh_status : Nat) :
    OpRes :=
  if throttleAllows st.last_refresh now then
    let st := { st with last_refresh := some now }
    if st.device_id = "" then ⟨st, [], none⟩
    else if st.use_channel_info then
      if refresh_status = 409 then ⟨{ st with state := .STATE_OFF }, [.postRefresh], none⟩
      else if isOkStatus refresh_status then ⟨st, [.postRefresh], none⟩
      else ⟨st, [.postRefresh], some .transport⟩
    else ⟨st, [], none⟩
  else ⟨st, [], none⟩

/-- Outcome of `async_device_health` as seen by `async_device_update`:
either one of the three caught exception types (`asyncio.TimeoutError`,
`ClientConnectionError`, `ClientResponseError`), or a normal return with the
online flag. -/
inductive HealthOutcome where
  | raisesCaught
  | online
  | offline
deriving DecidableEq

/-- Environment for one `async_device_update` call: the health-check outcome,
the time of the (possibly throttled) refresh attempt, the HTTP status of the
refresh POST, and the `/states` response (`none` = the GET raises). -/
structure UpdateEnv where
  health : HealthOutcome
  refresh_now : ℚ
  refresh_status : Nat
  states : Option DeviceDoc
deriving DecidableEq

/-- Lines 433-441 of `async_device_update`: optional overwrite of
`_use_channel_info`, then `_prev_state = _state`. -/
def SmartThingsTV.pre_update (st : SmartThingsTV) (arg : Option Bool) : SmartThingsTV :=
  let st :=
    match arg with
    | some b => { st with use_channel_info := b }
    | none => st
  { st with prev_state := st.state }

/-- Lines 476-501 of `async_device_update`: parse volume, mute, sound/picture
modes and their lists, the input-source map, and derive the source list from
the freshly stored map. -/
def SmartThingsTV.apply_status (st : SmartThingsTV) (doc : DeviceDoc) : SmartThingsTV :=
  let st := { st with volume := parseVolume doc.volume }
  let st := { st with muted := doc.mute.getD "" == "mute" }
  let st :=
    { st with
      sound_mode := doc.soundMode
      sound_mode_list := some (doc.supportedSoundModes.getD [])
      sound_mode_list_map := some (doc.supportedSoundModesMap.getD []) }
  let st :=
    { st with
      picture_mode := doc.pictureMode
      picture_mode_list := some (doc.supportedPictureModes.getD [])
      picture_mode_list_map := some (doc.supportedPictureModesMap.getD []) }
  let st := { st with source_list_map := some (doc.supportedInputSourcesMap.getD []) }
  { st with source_list := some st.get_source_list_from_map }

/-- Lines 476-523 of `async_device_update` (after the `/states` fetch):
normalization, then either the one-poll override hold (increment the counter
and stop) or adoption of the server-reported source/channel/channelName with
the DTV substitution and the `use_channel_info` channel policy. -/
def SmartThingsTV.post_fetch (st : SmartThingsTV) (doc : DeviceDoc) : SmartThingsTV :=
  let st := st.apply_status doc
  if st.is_forced_val = true ∧ st.forced_count ≤ 0 then
    { st with forced_count := st.forced_count + 1 }
  else
    let st := { st with is_forced_val := false, forced_count := 0 }
    let ds := doc.inputSource.getD ""
    let ds := if ds ≠ "" ∧ pyUpper ds = pyUpper DIGITAL_TV then DIGITAL_TV else ds
    let st := { st with source := ds }
    if st.use_channel_info then
      { st with channel := doc.tvChannel.getD "", channel_name := doc.tvChannelName.getD "" }
    else
      { st with channel := "", channel_name := "" }

/-- `SmartThingsTV.async_device_update` (lines 426-523). -/
def SmartThingsTV.async_device_update (st : SmartThingsTV) (arg : Option Bool)
    (env : UpdateEnv) : OpRes :=
  if st.device_id = "" then ⟨st, [], none⟩
  else
    let st := st.pre_update arg
    match env.health with
    | .raisesCaught => ⟨{ st with state := .STATE_UNKNOWN }, [.getHealth], none⟩
    | .offline => ⟨{ st with state := .STATE_OFF }, [.getHealth], none⟩
    | .online =>
      let st := { st with state := .STATE_ON }
      let r := st.device_refresh env.refresh_now env.refresh_status
      if r.error.isSome then ⟨r.st, .getHealth :: r.effects, r.error⟩
      else if r.st.state = .STATE_OFF then ⟨r.st, .getHealth :: r.effects, none⟩
      else
        match env.states with
        | none => ⟨r.st, .getHealth :: (r.effects ++ [.getStates]), some .transport⟩
        | some doc =>
          ⟨r.st.post_fetch doc, .getHealth :: (r.effects ++ [.getStates]), none⟩

/-- Environment for one `_async_send_command` call: whether the command POST
succeeds (on failure `raise_for_status` raises before `_device_refresh` is
reached), plus the time and refresh-POST status for the inner
`_device_refresh`. -/
structure SendEnv where
  post_ok : Bool
  refresh_now : ℚ
  refresh_status : Nat
deriving DecidableEq

/-- `SmartThingsTV._async_send_command` (lines 381-400).  `data_cmd` is the
payload built by `_command` (`none` models a falsy `data_cmd`); the POST
effect records capability, command and argument list. -/
def SmartThingsTV.async_send_command_data (st : SmartThingsTV)
    (data_cmd : Option (CmdData × List String)) (env : SendEnv) : OpRes :=
  if st.device_id = "" then ⟨st, [], none⟩
  else
    match data_cmd with
    | none => ⟨st, [], none⟩
    | some (c, args) =>
      if env.post_ok then
        let r := st.device_refresh env.refresh_now env.refresh_status
        ⟨r.st, .postCommand c.capability c.command args :: r.effects, r.error⟩
      else ⟨st, [.postCommand c.capability c.command args], some .transport⟩

/-- `SmartThingsTV.async_turn_off` (lines 525-528). -/
def SmartThingsTV.async_turn_off (st : SmartThingsTV) (env : SendEnv) : OpRes :=
  st.async_send_command_data (some (COMMAND_POWER_OFF, [])) env

/-- `SmartThingsTV.async_turn_on` (lines 530-533). -/
def SmartThingsTV.async_turn_on (st : SmartThingsTV) (env : SendEnv) : OpRes :=
  st.async_send_command_data (some (COMMAND_POWER_ON, [])) env

/-- `SmartThingsTV.async_send_command` (lines 535-561), the generic
dispatcher.  The `int(command)` coercion of the `setvolume` branch is elided
(arguments are modelled as strings).  An unrecognized `cmd_type` returns
before calling `_async_send_command`; a recognized type with an unrecognized
sub-command passes a falsy `data_cmd`, which no-ops inside — both are
observationally the empty run. -/
def SmartThingsTV.async_send_command (st : SmartThingsTV) (cmd_type command : String)
    (env : SendEnv) : OpRes :=
  if cmd_type = "setvolume" then
    st.async_send_command_data (some (COMMAND_SET_VOLUME, [command])) env
  else if cmd_type = "stepvolume" then
    if command = "up" then st.async_send_command_data (some (COMMAND_VOLUME_UP, [])) env
    else if command = "down" then
      st.async_send_command_data (some (COMMAND_VOLUME_DOWN, [])) env
    else st.async_send_command_data none env
  else if cmd_type = "audiomute" then
    if command = "on" then st.async_send_command_data (some (COMMAND_MUTE, [])) env
    else if command = "off" then st.async_send_command_data (some (COMMAND_UNMUTE, [])) env
    else st.async_send_command_data none env
  else if cmd_type = "selectchannel" then
    st.async_send_command_data (some (COMMAND_SET_CHANNEL, [command])) env
  else if cmd_type = "stepchannel" then
    if command = "up" then st.async_send_command_data (some (COMMAND_CHANNEL_UP, [])) env
    else if command = "down" then
      st.async_send_command_data (some (COMMAND_CHANNEL_DOWN, [])) env
    else st.async_send_command_data none env
  else ⟨st, [], none⟩

/-- `SmartThingsTV.async_select_source` (lines 563-570): the cached source is
updated optimistically via `_set_source` before the POST. -/
def SmartThingsTV.async_select_source (st : SmartThingsTV) (source : String)
    (env : SendEnv) : OpRes :=
  (st.set_source source).async_send_command_data (some (COMMAND_SET_SOURCE, [source])) env

/-- `SmartThingsTV.async_select_vd_source` (lines 572-577): no optimistic
local update. -/
def SmartThingsTV.async_select_vd_source (st : SmartThingsTV) (source : String)
    (env : SendEnv) : OpRes :=
  st.async_send_command_data (some (COMMAND_SET_VD_SOURCE, [source])) env

/-- `SmartThingsTV.async_set_sound_mode` (lines 579-594).  Iterating a `None`
list-map raises `TypeError`; a name match with no id, or no name match, raises
`InvalidSmartThingsSoundMode` before any network call. -/
def SmartThingsTV.async_set_sound_mode (st : SmartThingsTV) (mode : String)
    (env : SendEnv) : OpRes :=
  if st.state ≠ .STATE_ON then ⟨st, [], none⟩
  else
    match st.sound_mode_list_map with
    | none => ⟨st, [], some .typeError⟩
    | some l =>
      match (l.find? fun e => e.name == some mode).bind (fun e => e.id) with
      | none => ⟨st, [], some .invalidSoundMode⟩
      | some mode_id =>
        let r := st.async_send_command_data (some (COMMAND_SOUND_MODE, [mode_id])) env
        match r.error with
        | some e => ⟨r.st, r.effects, some e⟩
        | none => ⟨{ r.st with sound_mode := some mode }, r.effects, none⟩

/-- `SmartThingsTV.async_set_picture_mode` (lines 596-612). -/
def SmartThingsTV.async_set_picture_mode (st : SmartThingsTV) (mode : String)
    (env : SendEnv) : OpRes :=
  if st.state ≠ .STATE_ON then ⟨st, [], none⟩
  else
    match st.picture_mode_list_map with
    | none => ⟨st, [], some .typeError⟩
    | some l =>
      match (l.find? fun e => e.name == some mode).bind (fun e => e.id) with
      | none => ⟨st, [], some .invalidPictureMode⟩
      | some mode_id =>
        let r := st.async_send_command_data (some (COMMAND_PICTURE_MODE, [mode_id])) env
        match r.error with
        | some e => ⟨r.st, r.effects, some e⟩
        | none => ⟨{ r.st with picture_mode := some mode }, r.effects, none⟩

/-! ### Helper lemmas -/

/-- `device_refresh` touches at most `state` (409 branch) and the throttle
timestamp: every other field is preserved. -/
theorem device_refresh_frame (st : SmartThingsTV) (now : ℚ) (status : Nat) :
    ∃ s lr, (st.device_refresh now status).st =
      { st with state := s, last_refresh := lr } := by
  unfold SmartThingsTV.device_refresh
  dsimp only
  split
  · split
    · exact ⟨st.state, some now, rfl⟩
    · split
      · split
        · exact ⟨.STATE_OFF, some now, rfl⟩
        · split
          · exact ⟨st.state, some now, rfl⟩
          · exact ⟨st.state, some now, rfl⟩
      · exact ⟨st.state, some now, rfl⟩
  · exact ⟨st.state, st.last_refresh, rfl⟩

/-- With a 200 refresh status, `device_refresh` never raises and never turns
the state to `STATE_OFF`. -/
theorem device_refresh_200 (st : SmartThingsTV) (now : ℚ) :
    (st.device_refresh now 200).error = none ∧
      (st.device_refresh now 200).st.state = st.state := by
  unfold SmartThingsTV.device_refresh
  dsimp only
  split
  · split
    · exact ⟨rfl, rfl⟩
    · split
      · split
        · omega
        · split
          · exact ⟨rfl, rfl⟩
          · simp [isOkStatus] at *
      · exact ⟨rfl, rfl⟩
  · exact ⟨rfl, rfl⟩

/-- Normal-path decomposition of `async_device_update`: with a reachable
device (`device_id` nonempty), an online health check, a 200 refresh status
and a successful `/states` fetch, the update is exactly `pre_update`, the
`STATE_ON` transition, a possible throttle-timestamp write, and `post_fetch`
on the document. -/
theorem update_normal (st : SmartThingsTV) (arg : Option Bool) (now : ℚ)
    (doc : DeviceDoc) (hid : st.device_id ≠ "") :
    ∃ lr effs,
      st.async_device_update arg ⟨.online, now, 200, some doc⟩ =
        ⟨SmartThingsTV.post_fetch
            { st.pre_update arg with state := .STATE_ON, last_refresh := lr } doc,
          .getHealth :: (effs ++ [.getStates]), none⟩ := by
  obtain ⟨s, lr, hframe⟩ :=
    device_refresh_frame { st.pre_update arg with state := .STATE_ON } now 200
  obtain ⟨herr, hstate⟩ :=
    device_refresh_200 { st.pre_update arg with state := .STATE_ON } now
  rw [hframe] at hstate
  dsimp only at hstate
  refine ⟨lr,
    (({ st.pre_update arg with state := .STATE_ON } :
        SmartThingsTV).device_refresh now 200).effects, ?_⟩
  unfold SmartThingsTV.async_device_update
  rw [if_neg hid]
  dsimp only
  rw [herr, hframe]
  dsimp only [Option.isSome_none]
  rw [if_neg (by simp), if_neg (by rw [hstate]; simp)]
  rw [hstate]

/-- Field-by-field frame corollary of `device_refresh_frame`: every cached
field other than `state` and the throttle timestamp is preserved. -/
theorem device_refresh_preserves (st : SmartThingsTV) (now : ℚ) (status : Nat) :
    (st.device_refresh now status).st.device_id = st.device_id ∧
    (st.device_refresh now status).st.use_channel_info = st.use_channel_info ∧
    (st.device_refresh now status).st.prev_state = st.prev_state ∧
    (st.device_refresh now status).st.muted = st.muted ∧
    (st.device_refresh now status).st.volume = st.volume ∧
    (st.device_refresh now status).st.source_list = st.source_list ∧
    (st.device_refresh now status).st.source_list_map = st.source_list_map ∧
    (st.device_refresh now status).st.source = st.source ∧
    (st.device_refresh now status).st.channel = st.channel ∧
    (st.device_refresh now status).st.channel_name = st.channel_name ∧
    (st.device_refresh now status).st.sound_mode = st.sound_mode ∧
    (st.device_refresh now status).st.sound_mode_list = st.sound_mode_list ∧
    (st.device_refresh now status).st.sound_mode_list_map = st.sound_mode_list_map ∧
    (st.device_refresh now status).st.picture_mode = st.picture_mode ∧
    (st.device_refresh now status).st.picture_mode_list = st.picture_mode_list ∧
    (st.device_refresh now status).st.picture_mode_list_map = st.picture_mode_list_map ∧
    (st.device_refresh now status).st.is_forced_val = st.is_forced_val ∧
    (st.device_refresh now status).st.forced_count = st.forced_count := by
  obtain ⟨s, lr, hframe⟩ := device_refresh_frame st now status
  rw [hframe]
  exact ⟨rfl, rfl, rfl, rfl, rfl, rfl, rfl, rfl, rfl, rfl, rfl, rfl, rfl, rfl, rfl, rfl,
    rfl, rfl⟩

/-- `post_fetch` always stores the normalized volume of the document. -/
theorem post_fetch_volume (st : SmartThingsTV) (doc : DeviceDoc) :
    (st.post_fetch doc).volume = parseVolume doc.volume := by
  unfold SmartThingsTV.post_fetch SmartThingsTV.apply_status
  dsimp only
  split
  · rfl
  · split <;> rfl

/-- The one-poll override hold (lines 503-505): with the latch armed and the
counter at its initial value, `post_fetch` preserves the locally-set
`source`/`channel`/`channelName`, keeps the latch armed, and increments the
counter. -/
theorem post_fetch_hold (st : SmartThingsTV) (doc : DeviceDoc)
    (hf : st.is_forced_val = true) (hc : st.forced_count ≤ 0) :
    (st.post_fetch doc).source = st.source ∧
    (st.post_fetch doc).channel = st.channel ∧
    (st.post_fetch doc).channel_name = st.channel_name ∧
    (st.post_fetch doc).is_forced_val = true ∧
    (st.post_fetch doc).forced_count = st.forced_count + 1 ∧
    (st.post_fetch doc).use_channel_info = st.use_channel_info ∧
    (st.post_fetch doc).device_id = st.device_id ∧
    (st.post_fetch doc).last_refresh = st.last_refresh := by
  unfold SmartThingsTV.post_fetch SmartThingsTV.apply_status
  dsimp only
  split
  · exact ⟨rfl, rfl, rfl, hf, rfl, rfl, rfl, rfl⟩
  · next h => exact absurd ⟨hf, hc⟩ h

/-- The adoption step (lines 506-523): with the hold expired, `post_fetch`
clears the latch and adopts the server-reported source (with the DTV
substitution) and, per `use_channel_info`, the channel fields. -/
theorem post_fetch_adopt (st : SmartThingsTV) (doc : DeviceDoc)
    (h : ¬(st.is_forced_val = true ∧ st.forced_count ≤ 0)) :
    (st.post_fetch doc).is_forced_val = false ∧
    (st.post_fetch doc).forced_count = 0 ∧
    (st.post_fetch doc).source =
      (if doc.inputSource.getD "" ≠ "" ∧
          pyUpper (doc.inputSource.getD "") = pyUpper DIGITAL_TV
        then DIGITAL_TV else doc.inputSource.getD "") ∧
    (st.use_channel_info = true →
      (st.post_fetch doc).channel = doc.tvChannel.getD "" ∧
      (st.post_fetch doc).channel_name = doc.tvChannelName.getD "") ∧
    (st.use_channel_info = false →
      (st.post_fetch doc).channel = "" ∧ (st.post_fetch doc).channel_name = "") := by
  unfold SmartThingsTV.post_fetch SmartThingsTV.apply_status
  dsimp only
  split
  · next hg => exact absurd hg h
  · split
    · next hu =>
      refine ⟨rfl, rfl, rfl, fun _ => ⟨rfl, rfl⟩, fun hfalse => ?_⟩
      rw [hu] at hfalse
      cases hfalse
    · next hu =>
      refine ⟨rfl, rfl, rfl, fun htrue => absurd htrue hu, fun _ => ⟨rfl, rfl⟩⟩

/-- A string passing Python `isdigit` is nonempty. -/
theorem pyIsDigit_ne_empty (s : String) (h : pyIsDigit s = true) : s ≠ "" := by
  intro he
  subst he
  have hfalse : pyIsDigit "" = false := by decide
  rw [hfalse] at h
  cases h

/-! ### Claim theorems -/

/-- Claim C4: a health check raising one of the three caught transport errors
makes `async_device_update` return normally with `state = STATE_UNKNOWN`,
only the health request issued, and every other cached field (volume, muted,
source, channel, channelName, all mode and source lists/maps) unchanged. -/
theorem C4_health_error_degrades_to_unknown (st : SmartThingsTV) (arg : Option Bool)
    (now : ℚ) (status : Nat) (states : Option DeviceDoc) (hid : st.device_id ≠ "") :
    (st.async_device_update arg ⟨.raisesCaught, now, status, states⟩).error = none ∧
    (st.async_device_update arg ⟨.raisesCaught, now, status, states⟩).effects =
      [.getHealth] ∧
    (st.async_device_update arg ⟨.raisesCaught, now, status, states⟩).st.state =
      .STATE_UNKNOWN ∧
    (st.async_device_update arg ⟨.raisesCaught, now, status, states⟩).st.volume =
      st.volume ∧
    (st.async_device_update arg ⟨.raisesCaught, now, status, states⟩).st.muted =
      st.muted ∧
    (st.async_device_update arg ⟨.raisesCaught, now, status, states⟩).st.source =
      st.source ∧
    (st.async_device_update arg ⟨.raisesCaught, now, status, states⟩).st.channel =
      st.channel ∧
    (st.async_device_update arg ⟨.raisesCaught, now, status, states⟩).st.channel_name =
      st.channel_name ∧
    (st.async_device_update arg ⟨.raisesCaught, now, status, states⟩).st.sound_mode =
      st.sound_mode ∧
    (st.async_device_update arg ⟨.raisesCaught, now, status, states⟩).st.sound_mode_list =
      st.sound_mode_list ∧
    (st.async_device_update arg
        ⟨.raisesCaught, now, status, states⟩).st.sound_mode_list_map =
      st.sound_mode_list_map ∧
    (st.async_device_update arg ⟨.raisesCaught, now, status, states⟩).st.picture_mode =
      st.picture_mode ∧
    (st.async_device_update arg
        ⟨.raisesCaught, now, status, states⟩).st.picture_mode_list =
      st.picture_mode_list ∧
    (st.async_device_update arg
        ⟨.raisesCaught, now, status, states⟩).st.picture_mode_list_map =
      st.picture_mode_list_map ∧
    (st.async_device_update arg ⟨.raisesCaught, now, status, states⟩).st.source_list =
      st.source_list ∧
    (st.async_device_update arg
        ⟨.raisesCaught, now, status, states⟩).st.source_list_map =
      st.source_list_map := by
  unfold SmartThingsTV.async_device_update SmartThingsTV.pre_update
  rw [if_neg hid]
  cases arg <;>
    exact ⟨rfl, rfl, rfl, rfl, rfl, rfl, rfl, rfl, rfl, rfl, rfl, rfl, rfl, rfl, rfl, rfl⟩

/-- Witness for C4 at a concrete client state. -/
theorem C4_witness :
    (SmartThingsTV.init "key" "dev" true).device_id ≠ "" ∧
    ((SmartThingsTV.init "key" "dev" true).async_device_update none
        ⟨.raisesCaught, 0, 200, none⟩).st.state = .STATE_UNKNOWN := by
  refine ⟨by decide, ?_⟩
  exact (C4_health_error_degrades_to_unknown (SmartThingsTV.init "key" "dev" true)
    none 0 200 none (by decide)).2.2.1

/-- Claim C2: for a processed state document, a digit-string volume in the
range 0..100 yields `int(v) / 100`; an absent or non-numeric volume value
yields 0. -/
theorem C2_volume_parsing (st : SmartThingsTV) (arg : Option Bool) (now : ℚ)
    (doc : DeviceDoc) (hid : st.device_id ≠ "") :
    (∀ s, doc.volume = some s → pyIsDigit s = true → pyInt s ≤ 100 →
      (st.async_device_update arg ⟨.online, now, 200, some doc⟩).st.volume =
        (pyInt s : ℚ) / 100) ∧
    ((doc.volume = none ∨ ∃ s, doc.volume = some s ∧ pyIsDigit s = false) →
      (st.async_device_update arg ⟨.online, now, 200, some doc⟩).st.volume = 0) := by
  obtain ⟨lr, effs, heq⟩ := update_normal st arg now doc hid
  rw [heq]
  dsimp only
  rw [post_fetch_volume]
  constructor
  · intro s hs hdig _
    rw [hs]
    simp only [parseVolume]
    rw [if_pos ⟨pyIsDigit_ne_empty s hdig, hdig⟩]
  · rintro (h | ⟨s, hs, hdig⟩)
    · rw [h]
      rfl
    · rw [hs]
      simp only [parseVolume]
      rw [if_neg]
      rintro ⟨-, hd⟩
      rw [hdig] at hd
      cases hd

/-- Witness for C2: a document reporting volume "50" yields 1/2; one
reporting "abc" yields 0. -/
theorem C2_witness :
    ((SmartThingsTV.init "key" "dev" true).async_device_update none
        ⟨.online, 0, 200, some ⟨some "50", none, none, none, none, none, none, none,
          none, none, none, none⟩⟩).st.volume = 1 / 2 ∧
    ((SmartThingsTV.init "key" "dev" true).async_device_update none
        ⟨.online, 0, 200, some ⟨some "abc", none, none, none, none, none, none, none,
          none, none, none, none⟩⟩).st.volume = 0 := by
  constructor
  · have h := (C2_volume_parsing (SmartThingsTV.init "key" "dev" true) none 0
      ⟨some "50", none, none, none, none, none, none, none, none, none, none, none⟩
      (by decide)).1 "50" rfl (by decide) (by decide)
    rw [h]
    have h50 : pyInt "50" = 50 := by decide
    rw [h50]
    norm_num
  · exact (C2_volume_parsing (SmartThingsTV.init "key" "dev" true) none 0
      ⟨some "abc", none, none, none, none, none, none, none, none, none, none, none⟩
      (by decide)).2 (Or.inr ⟨"abc", rfl, by decide⟩)

/-- Claim C10: selecting the already-cached source leaves channel,
channel_name and the override latch untouched (the `_set_source` guard fails),
while the command POST is still issued. -/
theorem C10_select_same_source_frame (st : SmartThingsTV) (s : String) (env : SendEnv)
    (hs : s = st.source) (hid : st.device_id ≠ "") :
    (st.async_select_source s env).st.channel = st.channel ∧
    (st.async_select_source s env).st.channel_name = st.channel_name ∧
    (st.async_select_source s env).st.is_forced_val = st.is_forced_val ∧
    (st.async_select_source s env).st.forced_count = st.forced_count ∧
    (st.async_select_source s env).st.source = st.source ∧
    NetEffect.postCommand "mediaInputSource" "setInputSource" [s] ∈
      (st.async_select_source s env).effects := by
  unfold SmartThingsTV.async_select_source SmartThingsTV.set_source
  rw [if_neg (by rw [hs]; simp)]
  unfold SmartThingsTV.async_send_command_data
  rw [if_neg hid]
  dsimp only [COMMAND_SET_SOURCE]
  split
  · obtain ⟨sb, lr, hframe⟩ := device_refresh_frame st env.refresh_now env.refresh_status
    rw [hframe]
    exact ⟨rfl, rfl, rfl, rfl, rfl, List.mem_cons_self _ _⟩
  · exact ⟨rfl, rfl, rfl, rfl, rfl, List.mem_cons_self _ _⟩

/-- Witness for C10 at a concrete state whose cached source is "HDMI1". -/
theorem C10_witness :
    "HDMI1" = ({ SmartThingsTV.init "key" "dev" true with source := "HDMI1" } :
      SmartThingsTV).source ∧
    (({ SmartThingsTV.init "key" "dev" true with
        source := "HDMI1" } : SmartThingsTV).async_select_source "HDMI1"
        ⟨true, 0, 200⟩).st.is_forced_val = false := by
  refine ⟨rfl, ?_⟩
  have h := (C10_select_same_source_frame
    { SmartThingsTV.init "key" "dev" true with source := "HDMI1" } "HDMI1"
    ⟨true, 0, 200⟩ rfl (by decide)).2.2.1
  rw [h]
  rfl

/-- `_async_send_command` with a nonempty payload changes at most `state`
(via the inner refresh's 409 branch) and the throttle timestamp. -/
theorem send_command_frame (st : SmartThingsTV) (p : CmdData × List String)
    (env : SendEnv) :
    ∃ sb lr, (st.async_send_command_data (some p) env).st =
      { st with state := sb, last_refresh := lr } := by
  unfold SmartThingsTV.async_send_command_data
  dsimp only
  split
  · exact ⟨st.state, st.last_refresh, rfl⟩
  · split
    · obtain ⟨sb, lr, h⟩ := device_refresh_frame st env.refresh_now env.refresh_status
      exact ⟨sb, lr, h⟩
    · exact ⟨st.state, st.last_refresh, rfl⟩

/-- Claim C5: `async_set_sound_mode` in a non-ON state is a silent no-op with
no network call; in the ON state, a mode name without an exact (case
sensitive) name match in the sound-mode list-map raises the distinct
invalid-sound-mode error with no network call.  The analogous contract holds
for `async_set_picture_mode` with the invalid-picture-mode error. -/
theorem C5_mode_errors (st : SmartThingsTV) (mode : String) (env : SendEnv) :
    (st.state ≠ .STATE_ON →
      st.async_set_sound_mode mode env = ⟨st, [], none⟩ ∧
      st.async_set_picture_mode mode env = ⟨st, [], none⟩) ∧
    (∀ l, st.state = .STATE_ON → st.sound_mode_list_map = some l →
      (∀ e ∈ l, e.name ≠ some mode) →
      st.async_set_sound_mode mode env = ⟨st, [], some .invalidSoundMode⟩) ∧
    (∀ l, st.state = .STATE_ON → st.picture_mode_list_map = some l →
      (∀ e ∈ l, e.name ≠ some mode) →
      st.async_set_picture_mode mode env = ⟨st, [], some .invalidPictureMode⟩) := by
  refine ⟨?_, ?_, ?_⟩
  · intro h
    unfold SmartThingsTV.async_set_sound_mode SmartThingsTV.async_set_picture_mode
    rw [if_pos h, if_pos h]
    exact ⟨rfl, rfl⟩
  · intro l hOn hmap hno
    have hfind : (l.find? fun e => e.name == some mode) = none :=
      List.find?_eq_none.mpr fun e he => by simpa using hno e he
    unfold SmartThingsTV.async_set_sound_mode
    rw [if_neg fun hne => hne hOn, hmap]
    dsimp only
    rw [hfind]
    rfl
  · intro l hOn hmap hno
    have hfind : (l.find? fun e => e.name == some mode) = none :=
      List.find?_eq_none.mpr fun e he => by simpa using hno e he
    unfold SmartThingsTV.async_set_picture_mode
    rw [if_neg fun hne => hne hOn, hmap]
    dsimp only
    rw [hfind]
    rfl

/-- Witness for C5: a non-ON client ignores the request; an ON client with a
one-entry list-map rejects an unknown mode name with no network call. -/
theorem C5_witness :
    (SmartThingsTV.init "key" "dev" true).async_set_sound_mode "Standard"
      ⟨true, 0, 200⟩ = ⟨SmartThingsTV.init "key" "dev" true, [], none⟩ ∧
    ({ SmartThingsTV.init "key" "dev" true with
        state := .STATE_ON,
        sound_mode_list_map := some [⟨some "1", some "Standard"⟩] } :
      SmartThingsTV).async_set_sound_mode "NonexistentMode" ⟨true, 0, 200⟩ =
      ⟨{ SmartThingsTV.init "key" "dev" true with
          state := .STATE_ON,
          sound_mode_list_map := some [⟨some "1", some "Standard"⟩] }, [],
        some .invalidSoundMode⟩ := by
  constructor
  · exact ((C5_mode_errors (SmartThingsTV.init "key" "dev" true) "Standard"
      ⟨true, 0, 200⟩).1 (by decide)).1
  · exact (C5_mode_errors
      { SmartThingsTV.init "key" "dev" true with
        state := .STATE_ON,
        sound_mode_list_map := some [⟨some "1", some "Standard"⟩] }
      "NonexistentMode" ⟨true, 0, 200⟩).2.1 [⟨some "1", some "Standard"⟩]
      rfl rfl (by decide)

/-- Claim C1: selecting a source different from the cached one immediately
sets the cached source, clears both channel fields and arms the one-poll
override hold; the next `async_device_update` that reaches the normalization
step preserves these three values whatever the server reports, and the update
after that adopts the server-reported source/channel/channelName. -/
theorem C1_select_source_one_poll_hold (st : SmartThingsTV) (s : String)
    (env0 : SendEnv) (t1 t2 : ℚ) (doc1 doc2 : DeviceDoc) (v : String)
    (r0 r1 r2 : OpRes)
    (hid : st.device_id ≠ "") (huci : st.use_channel_info = true)
    (hs : st.source ≠ s)
    (hv : doc2.inputSource = some v) (hv1 : v ≠ "")
    (hv2 : pyUpper v ≠ pyUpper DIGITAL_TV)
    (h0 : r0 = st.async_select_source s env0)
    (h1 : r1 = r0.st.async_device_update none ⟨.online, t1, 200, some doc1⟩)
    (h2 : r2 = r1.st.async_device_update none ⟨.online, t2, 200, some doc2⟩) :
    (r0.st.source = s ∧ r0.st.channel = "" ∧ r0.st.channel_name = "" ∧
      r0.st.is_forced_val = true ∧ r0.st.forced_count = 0) ∧
    (r1.st.source = s ∧ r1.st.channel = "" ∧ r1.st.channel_name = "") ∧
    (r2.st.source = v ∧ r2.st.channel = doc2.tvChannel.getD "" ∧
      r2.st.channel_name = doc2.tvChannelName.getD "") := by
  obtain ⟨sb0, lr0, hA⟩ :=
    send_command_frame (st.set_source s) (COMMAND_SET_SOURCE, [s]) env0
  have hset : st.set_source s =
      { st with
        source := s
        channel := ""
        channel_name := ""
        is_forced_val := true
        forced_count := 0 } := by
    unfold SmartThingsTV.set_source
    rw [if_pos (Ne.symm hs)]
  have hA0 : r0.st =
      { st with
        source := s
        channel := ""
        channel_name := ""
        is_forced_val := true
        forced_count := 0
        state := sb0
        last_refresh := lr0 } := by
    rw [h0]
    show ((st.set_source s).async_send_command_data
      (some (COMMAND_SET_SOURCE, [s])) env0).st = _
    rw [hA, hset]
  have hA0id : r0.st.device_id ≠ "" := by
    rw [hA0]
    exact hid
  obtain ⟨lr1, effs1, hU1⟩ := update_normal r0.st none t1 doc1 hA0id
  set B1 : SmartThingsTV :=
    { r0.st.pre_update none with state := .STATE_ON, last_refresh := lr1 } with hB1
  have hr1 : r1.st = B1.post_fetch doc1 := by
    rw [h1, hU1]
  have hBf : B1.is_forced_val = true := by
    show r0.st.is_forced_val = true
    rw [hA0]
  have hBc : B1.forced_count ≤ 0 := by
    show r0.st.forced_count ≤ 0
    rw [hA0]
  obtain ⟨hh1, hh2, hh3, hh4, hh5, hh6, hh7, hh8⟩ := post_fetch_hold B1 doc1 hBf hBc
  have hr1id : r1.st.device_id ≠ "" := by
    rw [hr1, hh7]
    show r0.st.device_id ≠ ""
    exact hA0id
  obtain ⟨lr2, effs2, hU2⟩ := update_normal r1.st none t2 doc2 hr1id
  set B2 : SmartThingsTV :=
    { r1.st.pre_update none with state := .STATE_ON, last_refresh := lr2 } with hB2
  have hr2 : r2.st = B2.post_fetch doc2 := by
    rw [h2, hU2]
  have hB2guard : ¬(B2.is_forced_val = true ∧ B2.forced_count ≤ 0) := by
    rintro ⟨-, hle⟩
    have hfc : B2.forced_count = r1.st.forced_count := rfl
    rw [hfc, hr1, hh5] at hle
    have h0c : B1.forced_count = (0 : ℤ) := by
      show r0.st.forced_count = 0
      rw [hA0]
    rw [h0c] at hle
    omega
  obtain ⟨ha1, ha2, ha3, ha4, ha5⟩ := post_fetch_adopt B2 doc2 hB2guard
  have hB2u : B2.use_channel_info = true := by
    have e1 : B2.use_channel_info = r1.st.use_channel_info := rfl
    rw [e1, hr1, hh6]
    show r0.st.use_channel_info = true
    rw [hA0]
    exact huci
  refine ⟨⟨?_, ?_, ?_, ?_, ?_⟩, ⟨?_, ?_, ?_⟩, ⟨?_, ?_, ?_⟩⟩
  · rw [hA0]
  · rw [hA0]
  · rw [hA0]
  · rw [hA0]
  · rw [hA0]
  · rw [hr1, hh1]
    show r0.st.source = s
    rw [hA0]
  · rw [hr1, hh2]
    show r0.st.channel = ""
    rw [hA0]
  · rw [hr1, hh3]
    show r0.st.channel_name = ""
    rw [hA0]
  · rw [hr2, ha3, hv]
    show (if v ≠ "" ∧ pyUpper v = pyUpper DIGITAL_TV then DIGITAL_TV else v) = v
    rw [if_neg]
    rintro ⟨-, hup⟩
    exact hv2 hup
  · rw [hr2]
    exact (ha4 hB2u).1
  · rw [hr2]
    exact (ha4 hB2u).2

/-- Witness for C1: a fresh client selects "HDMI1"; the first update holds the
override although the server reports "HDMI2", and the second update adopts the
server-reported source. -/
theorem C1_witness :
    ((SmartThingsTV.init "key" "dev" true).async_select_source "HDMI1"
        ⟨true, 0, 200⟩).st.source = "HDMI1" ∧
    ((((SmartThingsTV.init "key" "dev" true).async_select_source "HDMI1"
        ⟨true, 0, 200⟩).st.async_device_update none
        ⟨.online, 20, 200, some ⟨none, none, none, none, none, none, none, none,
          none, some "HDMI2", some "7", some "News"⟩⟩).st.source = "HDMI1") ∧
    (((((SmartThingsTV.init "key" "dev" true).async_select_source "HDMI1"
        ⟨true, 0, 200⟩).st.async_device_update none
        ⟨.online, 20, 200, some ⟨none, none, none, none, none, none, none, none,
          none, some "HDMI2", some "7", some "News"⟩⟩).st.async_device_update none
        ⟨.online, 40, 200, some ⟨none, none, none, none, none, none, none, none,
          none, some "HDMI2", some "7", some "News"⟩⟩).st.source = "HDMI2") := by
  have h := C1_select_source_one_poll_hold (SmartThingsTV.init "key" "dev" true)
    "HDMI1" ⟨true, 0, 200⟩ 20 40
    ⟨none, none, none, none, none, none, none, none, none, some "HDMI2", some "7",
      some "News"⟩
    ⟨none, none, none, none, none, none, none, none, none, some "HDMI2", some "7",
      some "News"⟩
    "HDMI2" _ _ _ (by decide) rfl (by decide) rfl (by decide) (by decide)
    rfl rfl rfl
  exact ⟨h.1.1, h.2.1.1, h.2.2.1⟩

/-- The lookup loop yields "" when no entry's id equals the searched id. -/
theorem lookupSourceName_eq_empty (l : List STEntry) (sid : String)
    (h : ∀ e ∈ l, e.id ≠ some sid) : lookupSourceName l sid = "" := by
  induction l with
  | nil => rfl
  | cons e rest ih =>
    unfold lookupSourceName
    cases hide : e.id with
    | none => exact ih fun x hx => h x (List.mem_cons_of_mem _ hx)
    | some mid =>
      dsimp only
      rw [if_neg]
      · exact ih fun x hx => h x (List.mem_cons_of_mem _ hx)
      · rintro ⟨-, hEq⟩
        exact h e (List.mem_cons_self _ _) (by rw [hide, hEq])

/-- Claim C6 counterexample: with the single map entry id "DTV" (a
capitalization of "dtv"), `get_source_name "digitalTv"` returns "" rather
than that entry's name "TV": the DTV substitution on the argument is case
insensitive, but the lookup against the map's ids is case-sensitive. -/
theorem C6_counterexample :
    pyUpper "DTV" = pyUpper "dtv" ∧
    ({ SmartThingsTV.init "key" "dev" true with
        source_list_map := some [⟨some "DTV", some "TV"⟩] } :
      SmartThingsTV).get_source_name "digitalTv" = "" ∧
    ("" : String) ≠ "TV" := by
  refine ⟨by decide, by decide, by decide⟩

/-- Claim C6 amended: `get_source_name` substitutes `"dtv"` for any argument
that case-insensitively equals `"digitalTv"`, but the subsequent map lookup is
case-sensitive: an entry resolves only when its id is exactly `"dtv"`; a map
with no exact `"dtv"` id (for example one spelled `"DTV"`) yields `""`. -/
theorem C6_amended_dtv_lookup (st : SmartThingsTV) :
    (∀ arg, pyUpper arg = pyUpper DIGITAL_TV →
      st.get_source_name arg = st.get_source_name DIGITAL_TV) ∧
    (∀ name rest,
      st.source_list_map = some (⟨some "dtv", some name⟩ :: rest) →
      st.get_source_name DIGITAL_TV = name) ∧
    (∀ l, st.source_list_map = some l → (∀ e ∈ l, e.id ≠ some "dtv") →
      st.get_source_name DIGITAL_TV = "") := by
  refine ⟨?_, ?_, ?_⟩
  · intro arg harg
    unfold SmartThingsTV.get_source_name
    cases hm : st.source_list_map with
    | none => rfl
    | some l =>
      cases l with
      | nil => rfl
      | cons e rest =>
        dsimp only
        rw [if_pos harg, if_pos rfl]
  · intro name rest hmap
    unfold SmartThingsTV.get_source_name
    rw [hmap]
    dsimp only
    rw [if_pos rfl]
    unfold lookupSourceName
    dsimp only
    rw [if_pos ⟨by decide, rfl⟩]
    rfl
  · intro l hmap hno
    unfold SmartThingsTV.get_source_name
    rw [hmap]
    cases l with
    | nil => rfl
    | cons e rest =>
      dsimp only
      rw [if_pos rfl]
      exact lookupSourceName_eq_empty _ _ hno

/-- Witness for the amended C6: an exact "dtv" id resolves; a map whose only
id is "DTV" yields "". -/
theorem C6_amended_witness :
    ({ SmartThingsTV.init "key" "dev" true with
        source_list_map := some [⟨some "dtv", some "TV"⟩] } :
      SmartThingsTV).get_source_name DIGITAL_TV = "TV" ∧
    ({ SmartThingsTV.init "key" "dev" true with
        source_list_map := some [⟨some "DTV", some "TV"⟩] } :
      SmartThingsTV).get_source_name "DIGITALTV" =
      ({ SmartThingsTV.init "key" "dev" true with
          source_list_map := some [⟨some "DTV", some "TV"⟩] } :
        SmartThingsTV).get_source_name DIGITAL_TV := by
  constructor
  · exact (C6_amended_dtv_lookup
      { SmartThingsTV.init "key" "dev" true with
        source_list_map := some [⟨some "dtv", some "TV"⟩] }).2.1 "TV" [] rfl
  · exact (C6_amended_dtv_lookup
      { SmartThingsTV.init "key" "dev" true with
        source_list_map := some [⟨some "DTV", some "TV"⟩] }).1 "DIGITALTV" (by decide)

/-- On a state whose map is `some l`, the derived source list is exactly the
filter-map of the per-entry substitution. -/
theorem get_source_list_eq (stx : SmartThingsTV) (l : List STEntry)
    (hmap : stx.source_list_map = some l) :
    stx.get_source_list_from_map = l.filterMap sourceEntryOut := by
  unfold SmartThingsTV.get_source_list_from_map
  rw [hmap]
  cases l with
  | nil => rfl
  | cons e rest => rfl

/-- `post_fetch` stores the document's input-source map and derives the
source list from that freshly stored map. -/
theorem post_fetch_source_list (stx : SmartThingsTV) (doc : DeviceDoc) :
    (stx.post_fetch doc).source_list_map =
      some (doc.supportedInputSourcesMap.getD []) ∧
    (stx.post_fetch doc).source_list =
      some ((stx.post_fetch doc).get_source_list_from_map) := by
  unfold SmartThingsTV.post_fetch SmartThingsTV.apply_status
  dsimp only
  split
  · exact ⟨rfl, rfl⟩
  · split <;> exact ⟨rfl, rfl⟩

/-- Every string emitted by the per-entry substitution is either the
`DIGITAL_TV` constant or a string whose upper-case form is not "DTV". -/
theorem sourceEntryOut_spec (e : STEntry) (x : String)
    (h : sourceEntryOut e = some x) : x = DIGITAL_TV ∨ pyUpper x ≠ "DTV" := by
  unfold sourceEntryOut at h
  cases hide : e.id with
  | none =>
    rw [hide] at h
    cases h
  | some sid =>
    rw [hide] at h
    dsimp only at h
    by_cases h1 : sid ≠ ""
    · rw [if_pos h1] at h
      by_cases h2 : pyUpper sid = "DTV"
      · rw [if_pos h2] at h
        exact Or.inl (Option.some.inj h).symm
      · rw [if_neg h2] at h
        right
        rw [← Option.some.inj h]
        exact h2
    · rw [if_neg h1] at h
      cases h

/-- Claim C7 counterexample: the map `[{id: "DTV"}, {id: ""}]` has an entry
whose id is case-insensitively "dtv"; the derived list is exactly
`["digitalTv"]`, so the OTHER entry's id `""` does not appear unchanged (the
loop skips falsy ids), falsifying the claim's "every other entry's id appears
unchanged". -/
theorem C7_counterexample :
    pyUpper "DTV" = "DTV" ∧
    ({ SmartThingsTV.init "key" "dev" true with
        source_list_map := some [⟨some "DTV", none⟩, ⟨some "", some "x"⟩] } :
      SmartThingsTV).get_source_list_from_map = [DIGITAL_TV] ∧
    "" ∉ ({ SmartThingsTV.init "key" "dev" true with
        source_list_map := some [⟨some "DTV", none⟩, ⟨some "", some "x"⟩] } :
      SmartThingsTV).get_source_list_from_map := by
  refine ⟨by decide, by decide, by decide⟩

/-- Claim C7 amended: after an update that processes a document, `sourceList`
is derived from the freshly stored `sourceListMap`; on any state, an entry
whose NONEMPTY id is a capitalization of "dtv" contributes `DIGITAL_TV` to
the derived list and its raw id never appears there, and every other entry
with a nonempty id appears unchanged (entries with an absent or empty id are
skipped). -/
theorem C7_amended_source_list (st : SmartThingsTV) (arg : Option Bool) (now : ℚ)
    (doc : DeviceDoc) (hid : st.device_id ≠ "") (stx : SmartThingsTV)
    (l : List STEntry) (hmap : stx.source_list_map = some l) :
    ((st.async_device_update arg ⟨.online, now, 200, some doc⟩).st.source_list =
      some ((st.async_device_update arg
        ⟨.online, now, 200, some doc⟩).st.get_source_list_from_map)) ∧
    (∀ i e, e ∈ l → e.id = some i → i ≠ "" → pyUpper i = "DTV" →
      DIGITAL_TV ∈ stx.get_source_list_from_map ∧
      i ∉ stx.get_source_list_from_map) ∧
    (∀ j e, e ∈ l → e.id = some j → j ≠ "" → pyUpper j ≠ "DTV" →
      j ∈ stx.get_source_list_from_map) := by
  refine ⟨?_, ?_, ?_⟩
  · obtain ⟨lr, effs, heq⟩ := update_normal st arg now doc hid
    rw [heq]
    exact (post_fetch_source_list _ doc).2
  · intro i e hmem hei hi1 hi2
    rw [get_source_list_eq stx l hmap]
    constructor
    · refine List.mem_filterMap.mpr ⟨e, hmem, ?_⟩
      unfold sourceEntryOut
      rw [hei]
      dsimp only
      rw [if_pos hi1, if_pos hi2]
    · intro hin
      obtain ⟨e2, -, he2⟩ := List.mem_filterMap.mp hin
      rcases sourceEntryOut_spec e2 i he2 with h | h
      · rw [h] at hi2
        exact absurd hi2 (by decide)
      · exact h hi2
  · intro j e hmem hej hj1 hj2
    rw [get_source_list_eq stx l hmap]
    refine List.mem_filterMap.mpr ⟨e, hmem, ?_⟩
    unfold sourceEntryOut
    rw [hej]
    dsimp only
    rw [if_pos hj1, if_neg hj2]

/-- Witness for the amended C7 on a concrete map containing a "DTV" entry, an
empty-id entry and an "HDMI1" entry. -/
theorem C7_amended_witness :
    DIGITAL_TV ∈ ({ SmartThingsTV.init "key" "dev" true with
        source_list_map :=
          some [⟨some "DTV", none⟩, ⟨some "", none⟩, ⟨some "HDMI1", none⟩] } :
      SmartThingsTV).get_source_list_from_map ∧
    "DTV" ∉ ({ SmartThingsTV.init "key" "dev" true with
        source_list_map :=
          some [⟨some "DTV", none⟩, ⟨some "", none⟩, ⟨some "HDMI1", none⟩] } :
      SmartThingsTV).get_source_list_from_map ∧
    "HDMI1" ∈ ({ SmartThingsTV.init "key" "dev" true with
        source_list_map :=
          some [⟨some "DTV", none⟩, ⟨some "", none⟩, ⟨some "HDMI1", none⟩] } :
      SmartThingsTV).get_source_list_from_map := by
  have h := C7_amended_source_list (SmartThingsTV.init "key" "dev" true) none 0
    ⟨none, none, none, none, none, none, none, none, none, none, none, none⟩
    (by decide)
    { SmartThingsTV.init "key" "dev" true with
      source_list_map :=
        some [⟨some "DTV", none⟩, ⟨some "", none⟩, ⟨some "HDMI1", none⟩] }
    [⟨some "DTV", none⟩, ⟨some "", none⟩, ⟨some "HDMI1", none⟩] rfl
  have hdtv := h.2.1 "DTV" ⟨some "DTV", none⟩ (by decide) rfl (by decide) (by decide)
  have hh := h.2.2 "HDMI1" ⟨some "HDMI1", none⟩ (by decide) rfl (by decide) (by decide)
  exact ⟨hdtv.1, hdtv.2, hh⟩

/-- `_async_send_command` never changes the cached volume. -/
theorem send_data_volume (st : SmartThingsTV) (p : Option (CmdData × List String))
    (env : SendEnv) : (st.async_send_command_data p env).st.volume = st.volume := by
  cases p with
  | none =>
    unfold SmartThingsTV.async_send_command_data
    split <;> rfl
  | some q =>
    obtain ⟨sb, lr, h⟩ := send_command_frame st q env
    rw [h]

/-- Claim C3 counterexample: immediately after construction the cached volume
is 10 (the source sets `self._volume = 10`), which is neither 0 nor inside
the unit interval. -/
theorem C3_counterexample :
    (SmartThingsTV.init "key" "dev" true).volume = 10 ∧
    ¬((SmartThingsTV.init "key" "dev" true).volume ≤ 1) ∧
    (SmartThingsTV.init "key" "dev" true).volume ≠ 0 := by
  refine ⟨rfl, ?_, ?_⟩
  · show ¬((10 : ℚ) ≤ 1)
    norm_num
  · show (10 : ℚ) ≠ 0
    norm_num

/-- Claim C3 amended: the volume starts at 10 (not 0); an update either
leaves it unchanged or replaces it by the parsed document volume, which is
nonnegative and lies in [0, 1] whenever the reported digit string denotes at
most 100; no command method (select source, select vd source, sound/picture
mode, power, generic send) ever changes it. -/
theorem C3_amended_volume (st0 : SmartThingsTV) :
    (∀ k d u, (SmartThingsTV.init k d u).volume = 10) ∧
    (∀ arg env, (st0.async_device_update arg env).st.volume = st0.volume ∨
      ∃ doc, env.states = some doc ∧
        (st0.async_device_update arg env).st.volume = parseVolume doc.volume) ∧
    (∀ v, 0 ≤ parseVolume v) ∧
    (∀ s, pyIsDigit s = true → pyInt s ≤ 100 → parseVolume (some s) ≤ 1) ∧
    (∀ s env, (st0.async_select_source s env).st.volume = st0.volume) ∧
    (∀ m env, (st0.async_set_sound_mode m env).st.volume = st0.volume) ∧
    (∀ m env, (st0.async_set_picture_mode m env).st.volume = st0.volume) ∧
    (∀ env, (st0.async_turn_on env).st.volume = st0.volume ∧
      (st0.async_turn_off env).st.volume = st0.volume) ∧
    (∀ c a env, (st0.async_send_command c a env).st.volume = st0.volume) ∧
    (∀ s env, (st0.async_select_vd_source s env).st.volume = st0.volume) := by
  refine ⟨fun k d u => rfl, ?_, ?_, ?_, ?_, ?_, ?_, ?_, ?_, ?_⟩
  · intro arg env
    unfold SmartThingsTV.async_device_update
    split
    · left
      rfl
    · dsimp only
      cases arg <;> cases hh : env.health
      case none.raisesCaught => left; rfl
      case none.offline => left; rfl
      case some.raisesCaught => left; rfl
      case some.offline => left; rfl
      all_goals
        dsimp only
        obtain ⟨sb, lr, hframe⟩ := device_refresh_frame _ env.refresh_now env.refresh_status
        rw [hframe]
        split
        · left
          rfl
        · split
          · left
            rfl
          · cases hs : env.states with
            | none => left; rfl
            | some doc =>
              right
              exact ⟨doc, rfl, by dsimp only; rw [post_fetch_volume]⟩
  · intro v
    unfold parseVolume
    cases v with
    | none => exact le_refl 0
    | some s =>
      dsimp only
      split
      · positivity
      · exact le_refl 0
  · intro s hdig hle
    simp only [parseVolume]
    rw [if_pos ⟨pyIsDigit_ne_empty s hdig, hdig⟩]
    rw [div_le_one (by norm_num)]
    exact_mod_cast hle
  · intro s env
    have h : ((st0.set_source s).async_send_command_data
        (some (COMMAND_SET_SOURCE, [s])) env).st.volume = (st0.set_source s).volume :=
      send_data_volume _ _ _
    show ((st0.set_source s).async_send_command_data
      (some (COMMAND_SET_SOURCE, [s])) env).st.volume = st0.volume
    rw [h]
    unfold SmartThingsTV.set_source
    split <;> rfl
  · intro m env
    unfold SmartThingsTV.async_set_sound_mode
    split
    · rfl
    · dsimp only
      cases hm : st0.sound_mode_list_map with
      | none => rfl
      | some l =>
        dsimp only
        cases hf : (l.find? fun e => e.name == some m).bind (fun e => e.id) with
        | none => rfl
        | some mid =>
          dsimp only
          cases he : (st0.async_send_command_data
              (some (COMMAND_SOUND_MODE, [mid])) env).error with
          | some e =>
            dsimp only
            exact send_data_volume _ _ _
          | none =>
            dsimp only
            show (st0.async_send_command_data
              (some (COMMAND_SOUND_MODE, [mid])) env).st.volume = st0.volume
            exact send_data_volume _ _ _
  · intro m env
    unfold SmartThingsTV.async_set_picture_mode
    split
    · rfl
    · dsimp only
      cases hm : st0.picture_mode_list_map with
      | none => rfl
      | some l =>
        dsimp only
        cases hf : (l.find? fun e => e.name == some m).bind (fun e => e.id) with
        | none => rfl
        | some mid =>
          dsimp only
          cases he : (st0.async_send_command_data
              (some (COMMAND_PICTURE_MODE, [mid])) env).error with
          | some e =>
            dsimp only
            exact send_data_volume _ _ _
          | none =>
            dsimp only
            show (st0.async_send_command_data
              (some (COMMAND_PICTURE_MODE, [mid])) env).st.volume = st0.volume
            exact send_data_volume _ _ _
  · intro env
    exact ⟨send_data_volume _ _ _, send_data_volume _ _ _⟩
  · intro c a env
    unfold SmartThingsTV.async_send_command
    repeat' split
    all_goals first | rfl | exact send_data_volume _ _ _
  · intro s env
    exact send_data_volume _ _ _

/-- Witness for the amended C3: the constructed volume is 10 and the parsed
"100" volume is within the unit interval. -/
theorem C3_amended_witness :
    (SmartThingsTV.init "key" "dev" true).volume = 10 ∧
    parseVolume (some "100") ≤ 1 ∧ 0 ≤ parseVolume (some "100") := by
  refine ⟨(C3_amended_volume (SmartThingsTV.init "key" "dev" true)).1 "key" "dev" true,
    (C3_amended_volume (SmartThingsTV.init "key" "dev" true)).2.2.2.1 "100"
      (by decide) (by decide),
    (C3_amended_volume (SmartThingsTV.init "key" "dev" true)).2.2.1 (some "100")⟩

/-- The refresh-trigger effect list is empty or the single POST. -/
theorem device_refresh_effects (st : SmartThingsTV) (now : ℚ) (status : Nat) :
    (st.device_refresh now status).effects = [] ∨
      (st.device_refresh now status).effects = [.postRefresh] := by
  unfold SmartThingsTV.device_refresh
  dsimp only
  split
  · split
    · exact Or.inl rfl
    · split
      · split
        · exact Or.inr rfl
        · split
          · exact Or.inr rfl
          · exact Or.inr rfl
      · exact Or.inl rfl
  · exact Or.inl rfl

/-- The refresh trigger either does nothing visible or issues the single
POST and records its admission time in the throttle gate. -/
theorem device_refresh_last (st : SmartThingsTV) (now : ℚ) (status : Nat) :
    (st.device_refresh now status).effects = [] ∨
    ((st.device_refresh now status).effects = [.postRefresh] ∧
      (st.device_refresh now status).st.last_refresh = some now) := by
  unfold SmartThingsTV.device_refresh
  dsimp only
  split
  · split
    · exact Or.inl rfl
    · split
      · split
        · exact Or.inr ⟨rfl, rfl⟩
        · split
          · exact Or.inr ⟨rfl, rfl⟩
          · exact Or.inr ⟨rfl, rfl⟩
      · exact Or.inl rfl
  · exact Or.inl rfl

/-- When the refresh-trigger POST is actually issued, the throttle gate has
recorded the call time. -/
theorem device_refresh_post_mem (st : SmartThingsTV) (now : ℚ) (status : Nat)
    (h : NetEffect.postRefresh ∈ (st.device_refresh now status).effects) :
    (st.device_refresh now status).st.last_refresh = some now := by
  rcases device_refresh_last st now status with he | ⟨-, hl⟩
  · rw [he] at h
    cases h
  · exact hl

/-- Within the 10-second window the throttled `_device_refresh` does nothing
at all: no state change, no network call. -/
theorem device_refresh_throttled (st : SmartThingsTV) (now : ℚ) (status : Nat)
    (t : ℚ) (hl : st.last_refresh = some t) (hlt : now - t < 10) :
    st.device_refresh now status = ⟨st, [], none⟩ := by
  have hfalse : throttleAllows st.last_refresh now = false := by
    unfold throttleAllows
    rw [hl]
    simp only [decide_eq_false_iff_not]
    linarith
  unfold SmartThingsTV.device_refresh
  dsimp only
  rw [hfalse]
  rfl

/-- No command dispatch ever issues a `/states` fetch. -/
theorem send_data_no_getStates (st : SmartThingsTV)
    (p : Option (CmdData × List String)) (env : SendEnv) :
    NetEffect.getStates ∉ (st.async_send_command_data p env).effects := by
  unfold SmartThingsTV.async_send_command_data
  dsimp only
  split
  · simp
  · cases p with
    | none => simp
    | some q =>
      obtain ⟨c, args⟩ := q
      dsimp only
      split
      · rcases device_refresh_effects st env.refresh_now env.refresh_status with h | h <;>
          rw [h] <;> simp
      · simp

/-- Claim C8 counterexample: after a successful `async_turn_off` POST the
code awaits only the throttled refresh-trigger; the run issues no `/states`
fetch and the cached fields (volume shown here) are not reconciled, so no
full refresh/update cycle happens. -/
theorem C8_counterexample :
    ((SmartThingsTV.init "key" "dev" true).async_turn_off ⟨true, 0, 200⟩).error =
      none ∧
    ((SmartThingsTV.init "key" "dev" true).async_turn_off ⟨true, 0, 200⟩).effects =
      [.postCommand "switch" "off" [], .postRefresh] ∧
    NetEffect.getStates ∉
      ((SmartThingsTV.init "key" "dev" true).async_turn_off ⟨true, 0, 200⟩).effects ∧
    ((SmartThingsTV.init "key" "dev" true).async_turn_off ⟨true, 0, 200⟩).st.volume =
      (SmartThingsTV.init "key" "dev" true).volume := by
  refine ⟨by decide, by decide, by decide, rfl⟩

/-- Claim C8 amended: every public command method synchronously awaits the
throttled refresh-trigger after a successful POST (issuing the trigger POST
when the device id is set, the POST succeeded, channel info is in use and the
throttle window is open), but none of them ever fetches the `/states`
document or reconciles cached telemetry (volume, muted, source, channel are
untouched). -/
theorem C8_amended_no_state_refetch (st : SmartThingsTV) (env : SendEnv) :
    (∀ p, NetEffect.getStates ∉ (st.async_send_command_data p env).effects ∧
      (st.async_send_command_data p env).st.volume = st.volume ∧
      (st.async_send_command_data p env).st.muted = st.muted ∧
      (st.async_send_command_data p env).st.source = st.source ∧
      (st.async_send_command_data p env).st.channel = st.channel) ∧
    NetEffect.getStates ∉ (st.async_turn_on env).effects ∧
    NetEffect.getStates ∉ (st.async_turn_off env).effects ∧
    (∀ s, NetEffect.getStates ∉ (st.async_select_source s env).effects ∧
      NetEffect.getStates ∉ (st.async_select_vd_source s env).effects) ∧
    (∀ c a, NetEffect.getStates ∉ (st.async_send_command c a env).effects) ∧
    (∀ m, NetEffect.getStates ∉ (st.async_set_sound_mode m env).effects ∧
      NetEffect.getStates ∉ (st.async_set_picture_mode m env).effects) ∧
    (st.device_id ≠ "" → env.post_ok = true → st.use_channel_info = true →
      throttleAllows st.last_refresh env.refresh_now = true →
      NetEffect.postRefresh ∈ (st.async_turn_off env).effects) := by
  refine ⟨?_, ?_, ?_, ?_, ?_, ?_, ?_⟩
  · intro p
    refine ⟨send_data_no_getStates st p env, send_data_volume st p env, ?_, ?_, ?_⟩ <;>
      cases p with
      | none =>
        unfold SmartThingsTV.async_send_command_data
        split <;> rfl
      | some q =>
        obtain ⟨sb, lr, h⟩ := send_command_frame st q env
        rw [h]
  · exact send_data_no_getStates st _ env
  · exact send_data_no_getStates st _ env
  · intro s
    exact ⟨send_data_no_getStates _ _ env, send_data_no_getStates st _ env⟩
  · intro c a
    unfold SmartThingsTV.async_send_command
    repeat' split
    all_goals first | simp | apply send_data_no_getStates
  · intro m
    constructor
    · unfold SmartThingsTV.async_set_sound_mode
      split
      · simp
      · dsimp only
        cases hm : st.sound_mode_list_map with
        | none => simp
        | some l =>
          dsimp only
          cases hf : (l.find? fun e => e.name == some m).bind (fun e => e.id) with
          | none => simp
          | some mid =>
            dsimp only
            cases he : (st.async_send_command_data
                (some (COMMAND_SOUND_MODE, [mid])) env).error with
            | some e =>
              dsimp only
              exact send_data_no_getStates st _ env
            | none =>
              dsimp only
              exact send_data_no_getStates st _ env
    · unfold SmartThingsTV.async_set_picture_mode
      split
      · simp
      · dsimp only
        cases hm : st.picture_mode_list_map with
        | none => simp
        | some l =>
          dsimp only
          cases hf : (l.find? fun e => e.name == some m).bind (fun e => e.id) with
          | none => simp
          | some mid =>
            dsimp only
            cases he : (st.async_send_command_data
                (some (COMMAND_PICTURE_MODE, [mid])) env).error with
            | some e =>
              dsimp only
              exact send_data_no_getStates st _ env
            | none =>
              dsimp only
              exact send_data_no_getStates st _ env
  · intro hid hpost huci hthr
    have hre : (st.device_refresh env.refresh_now env.refresh_status).effects =
        [.postRefresh] ∨
        (st.device_refresh env.refresh_now env.refresh_status).effects =
          [.postRefresh] := by
      unfold SmartThingsTV.device_refresh
      dsimp only
      rw [if_pos hthr, if_neg (show ¬(({ st with
          last_refresh := some env.refresh_now } : SmartThingsTV).device_id = "")
        from hid), if_pos (show ({ st with
          last_refresh := some env.refresh_now } : SmartThingsTV).use_channel_info =
          true from huci)]
      split
      · exact Or.inl rfl
      · split
        · exact Or.inl rfl
        · exact Or.inl rfl
    unfold SmartThingsTV.async_turn_off SmartThingsTV.async_send_command_data
    rw [if_neg hid]
    dsimp only
    rw [if_pos hpost]
    rcases hre with h | h <;> rw [h] <;> simp

/-- Witness for the amended C8: a concrete successful `async_turn_off` run
issues no `/states` fetch but does issue the refresh-trigger POST. -/
theorem C8_amended_witness :
    NetEffect.getStates ∉
      ((SmartThingsTV.init "key" "dev" true).async_turn_off ⟨true, 0, 200⟩).effects ∧
    NetEffect.postRefresh ∈
      ((SmartThingsTV.init "key" "dev" true).async_turn_off ⟨true, 0, 200⟩).effects :=
  ⟨(C8_amended_no_state_refetch (SmartThingsTV.init "key" "dev" true)
      ⟨true, 0, 200⟩).2.2.1,
    (C8_amended_no_state_refetch (SmartThingsTV.init "key" "dev" true)
      ⟨true, 0, 200⟩).2.2.2.2.2.2 (by decide) rfl rfl (by decide)⟩

/-- `pre_update` never touches the throttle timestamp. -/
theorem pre_update_last_refresh (st : SmartThingsTV) (arg : Option Bool) :
    (st.pre_update arg).last_refresh = st.last_refresh := by
  cases arg <;> rfl

/-- `post_fetch` never touches the throttle timestamp. -/
theorem post_fetch_last_refresh (stx : SmartThingsTV) (doc : DeviceDoc) :
    (stx.post_fetch doc).last_refresh = stx.last_refresh := by
  unfold SmartThingsTV.post_fetch SmartThingsTV.apply_status
  dsimp only
  split
  · rfl
  · split <;> rfl


/-- Counting refresh POSTs ignores the surrounding health/states requests. -/
theorem count_wrap (l : List NetEffect) :
    List.count NetEffect.postRefresh
        (NetEffect.getHealth :: (l ++ [NetEffect.getStates])) =
      List.count NetEffect.postRefresh l ∧
    List.count NetEffect.postRefresh (NetEffect.getHealth :: l) =
      List.count NetEffect.postRefresh l := by
  constructor <;> simp [List.count_cons, List.count_append]

/-- One `async_device_update` issues at most one refresh-trigger POST; if it
issues one, the gate records the attempt time; and if the previous admission
is less than 10 seconds old, it issues none. -/
theorem update_refresh_count (st : SmartThingsTV) (arg : Option Bool)
    (env : UpdateEnv) :
    (st.async_device_update arg env).effects.count NetEffect.postRefresh ≤ 1 ∧
    (0 < (st.async_device_update arg env).effects.count NetEffect.postRefresh →
      (st.async_device_update arg env).st.last_refresh = some env.refresh_now) ∧
    (∀ t, st.last_refresh = some t → env.refresh_now - t < 10 →
      (st.async_device_update arg env).effects.count NetEffect.postRefresh = 0) := by
  unfold SmartThingsTV.async_device_update
  split
  · refine ⟨?_, ?_, fun t ht hlt => ?_⟩ <;> dsimp only
    · decide
    · intro h
      exact absurd h (by decide)
    · decide
  · dsimp only
    cases hh : env.health with
    | raisesCaught =>
      refine ⟨?_, ?_, fun t ht hlt => ?_⟩ <;> dsimp only
      · decide
      · intro h
        exact absurd h (by decide)
      · decide
    | offline =>
      refine ⟨?_, ?_, fun t ht hlt => ?_⟩ <;> dsimp only
      · decide
      · intro h
        exact absurd h (by decide)
      · decide
    | online =>
      dsimp only
      rcases device_refresh_last
          ({ st.pre_update arg with state := .STATE_ON } : SmartThingsTV)
          env.refresh_now env.refresh_status with hre | ⟨hre, hlast⟩
      · rw [hre]
        refine ⟨?_, ?_, fun t ht hlt => ?_⟩
        · split
          · dsimp only
            rw [(count_wrap _).2]
            decide
          · split
            · dsimp only
              rw [(count_wrap _).2]
              decide
            · cases hs : env.states <;> dsimp only <;> rw [(count_wrap _).1] <;> decide
        · split
          · dsimp only
            rw [(count_wrap _).2]
            intro h
            exact absurd h (by decide)
          · split
            · dsimp only
              rw [(count_wrap _).2]
              intro h
              exact absurd h (by decide)
            · cases hs : env.states <;> dsimp only <;> rw [(count_wrap _).1] <;>
                (intro h; exact absurd h (by decide))
        · split
          · dsimp only
            rw [(count_wrap _).2]
            decide
          · split
            · dsimp only
              rw [(count_wrap _).2]
              decide
            · cases hs : env.states <;> dsimp only <;> rw [(count_wrap _).1] <;> decide
      · rw [hre]
        refine ⟨?_, ?_, fun t ht hlt => ?_⟩
        · split
          · dsimp only
            rw [(count_wrap _).2]
            decide
          · split
            · dsimp only
              rw [(count_wrap _).2]
              decide
            · cases hs : env.states <;> dsimp only <;> rw [(count_wrap _).1] <;> decide
        · split
          · intro h
            exact hlast
          · split
            · intro h
              exact hlast
            · cases hs : env.states with
              | none =>
                intro h
                exact hlast
              | some doc =>
                intro h
                dsimp only
                rw [post_fetch_last_refresh]
                exact hlast
        · exfalso
          have hston : ({ st.pre_update arg with state := .STATE_ON } :
              SmartThingsTV).last_refresh = some t := by
            show (st.pre_update arg).last_refresh = some t
            rw [pre_update_last_refresh]
            exact ht
          have hthr := device_refresh_throttled
            ({ st.pre_update arg with state := .STATE_ON } : SmartThingsTV)
            env.refresh_now env.refresh_status t hston hlt
          rw [hthr] at hre
          cases hre

/-- Claim C9: two consecutive `async_device_update` calls whose refresh
attempts fall less than 10 seconds apart issue at most one refresh-trigger
POST between them; the suppressed attempt makes no request at all (the
Throttle gate is modelled from the spec, see `throttleAllows`). -/
theorem C9_refresh_rate_limited (st : SmartThingsTV) (a1 a2 : Option Bool)
    (e1 e2 : UpdateEnv) (hwin : e2.refresh_now - e1.refresh_now < 10) :
    ((st.async_device_update a1 e1).effects ++
      ((st.async_device_update a1 e1).st.async_device_update a2 e2).effects).count
      NetEffect.postRefresh ≤ 1 := by
  rw [List.count_append]
  obtain ⟨h1le, h1pos, -⟩ := update_refresh_count st a1 e1
  obtain ⟨h2le, -, h2thr⟩ :=
    update_refresh_count (st.async_device_update a1 e1).st a2 e2
  by_cases h : 0 < (st.async_device_update a1 e1).effects.count NetEffect.postRefresh
  · have hz := h2thr e1.refresh_now (h1pos h) hwin
    omega
  · omega

/-- Witness for C9 with two concrete updates 5 seconds apart. -/
theorem C9_witness :
    (((SmartThingsTV.init "key" "dev" true).async_device_update none
        ⟨.online, 0, 200, none⟩).effects ++
      (((SmartThingsTV.init "key" "dev" true).async_device_update none
        ⟨.online, 0, 200, none⟩).st.async_device_update none
        ⟨.online, 5, 200, none⟩).effects).count NetEffect.postRefresh ≤ 1 :=
  C9_refresh_rate_limited (SmartThingsTV.init "key" "dev" true) none none
    ⟨.online, 0, 200, none⟩ ⟨.online, 5, 200, none⟩ (by norm_num)
